import Mathlib

/-!
Shallow embedding of `custom_components/enphase_production_toggle/envoy_client.py`
(class `EnvoyClient`): the multi-step authentication flow, the telemetry read
(`get_production_status`) and the power control write (`set_production_power`).

Modelling conventions:
* The aiohttp transport is replaced by an explicit `Env` holding the pending
  response of each endpoint the client talks to.  Each operation returns an
  `Except String` result (a raised exception becomes `.error msg`), the updated
  client state, and the list of HTTP requests actually issued (`Event`).
* The `_session` object is modelled by the Boolean `session_active`
  (`none` / live session); its buffered contents are not modelled.
* Python truthiness of optional strings (`if not self.serial_number:`,
  `if token:`, `if self.jwt_token:`) is `pyTruthy`.
* JSON numbers are modelled as `Int`; JSON bodies are modelled structurally.
* `urllib.parse.urlparse` / `parse_qs` are modelled by `urlQuery` / `qsPairs`
  (percent-decoding is not modelled: names and values compare literally,
  which no claim depends on).
* `re.search(r'<sn>(\d+)</sn>', text)` is modelled by `findSn`: the first
  position carrying `<sn>`, a nonempty digit run, then `</sn>`.
-/

namespace Enphase

/-- Python truthiness of an optional string: `None` and `""` are falsy. -/
def pyTruthy : Option String → Bool
  | none => false
  | some s => !s.isEmpty

/-- Python `a or b` on two optional strings (`data.get(...) or data.get(...)`). -/
def pyOr (a b : Option String) : Option String :=
  if pyTruthy a then a else b

/-- `needle` occurs at the head of `hay`. -/
def leadsWith : List Char → List Char → Bool
  | [], _ => true
  | _ :: _, [] => false
  | a :: as, b :: bs => a = b && leadsWith as bs

/-- Python `needle in hay` substring test. -/
def occursIn (needle : List Char) : List Char → Bool
  | [] => needle.isEmpty
  | c :: rest => leadsWith needle (c :: rest) || occursIn needle rest

/-- Match `<sn>(\d+)</sn>` anchored at the head of `l`, returning the digits. -/
def snAt (l : List Char) : Option String :=
  if leadsWith "<sn>".toList l then
    let rest := l.drop 4
    let ds := rest.takeWhile Char.isDigit
    if !ds.isEmpty && leadsWith "</sn>".toList (rest.drop ds.length) then
      some (String.mk ds)
    else none
  else none

/-- `re.search(r'<sn>(\d+)</sn>', ·)`: first position where the pattern matches. -/
def snSearch : List Char → Option String
  | [] => none
  | c :: rest =>
    match snAt (c :: rest) with
    | some s => some s
    | none => snSearch rest

def findSn (s : String) : Option String := snSearch s.toList

/-- Split at the first occurrence of `sep`, dropping the separator. -/
def splitAtFirst (sep : Char) : List Char → Option (List Char × List Char)
  | [] => none
  | c :: rest =>
    if c = sep then some ([], rest)
    else
      match splitAtFirst sep rest with
      | some (a, b) => some (c :: a, b)
      | none => none

/-- The query component of a URL (`urlparse(url).query`): the part after the
first `?`, with any fragment (after the first `#`) removed first. -/
def urlQuery (url : String) : List Char :=
  let beforeFrag :=
    match splitAtFirst '#' url.toList with
    | some (a, _) => a
    | none => url.toList
  match splitAtFirst '?' beforeFrag with
  | some (_, q) => q
  | none => []

/-- Split on every occurrence of `sep` (like Python `str.split(sep)`). -/
def splitList (sep : Char) : List Char → List (List Char)
  | [] => [[]]
  | c :: rest =>
    let r := splitList sep rest
    if c = sep then [] :: r
    else
      match r with
      | [] => [[c]]
      | h :: t => (c :: h) :: t

/-- `parse_qsl` with its defaults: fields split on `&`, empty fields skipped,
fields without `=` skipped, blank values skipped. -/
def qsPairs (q : List Char) : List (String × String) :=
  (splitList '&' q).filterMap fun f =>
    if f.isEmpty then none
    else
      match splitAtFirst '=' f with
      | none => none
      | some (n, v) => if v.isEmpty then none else some (String.mk n, String.mk v)

/-- `parse_qs(q)[key][0]` when `key` is present, `none` otherwise. -/
def qsFirst (q : List Char) (key : String) : Option String :=
  (qsPairs q).findSome? fun p => if p.1 = key then some p.2 else none

/-! ## HTTP environment -/

/-- A plain HTTP response: status, optional `Location` header, text body. -/
structure HttpResponse where
  status : Nat
  location : Option String := none
  body : String := ""
  deriving DecidableEq

/-- JSON body of the Entrez token-exchange response. -/
structure TokenJson where
  access_token : Option String := none
  token : Option String := none
  deriving DecidableEq

/-- Token-exchange response; `json = none` models a body `response.json()`
fails to parse. -/
structure TokenResponse where
  status : Nat
  json : Option TokenJson := none
  deriving DecidableEq

/-- One entry of the `production` array of `production.json`. -/
structure ProdEntry where
  wNow : Option Int := none
  deriving DecidableEq

/-- JSON body of `production.json`. -/
structure ProdJson where
  production : Option (List ProdEntry) := none
  deriving DecidableEq

/-- Telemetry response. -/
structure ProdResponse where
  status : Nat
  json : ProdJson := {}
  deriving DecidableEq

/-- The pending responses of every endpoint the client can hit. -/
structure Env where
  infoResp : HttpResponse
  loginResp : HttpResponse
  tokenResp : TokenResponse
  checkResp : HttpResponse
  prodResp : ProdResponse
  powerStatus : Nat
  deriving DecidableEq

/-! ## Client state and observable events -/

/-- The mutable fields of `EnvoyClient.__init__`. -/
structure EnvoyClient where
  host : String
  username : String
  password : String
  serial_number : Option String := none
  session_id : Option String := none
  jwt_token : Option String := none
  session_active : Bool := false
  deriving DecidableEq

/-- The JSON payload of the power-control PUT. -/
structure PowerPayload where
  length : Nat
  arr : List Nat
  deriving DecidableEq

/-- One HTTP request issued by the client.  `getProduction` records whether an
`Authorization` header was attached (the source only sets it when
`self.jwt_token` is truthy). -/
inductive Event where
  | getInfo
  | postLogin
  | postTokenExchange
  | postCheckJwt
  | getProduction (authHeader : Bool)
  | putPower (payload : PowerPayload)
  deriving DecidableEq

/-- Result of a stateful client call: outcome, final state, requests issued. -/
structure StepResult (α : Type) where
  result : Except String α
  state : EnvoyClient
  trace : List Event

/-! ## Operations (translated from `envoy_client.py`) -/

/-- `EnvoyClient._get_serial_number`: GET `http://host/info.xml`, regex-extract
the serial; raises when the session is missing, the status is not 200, or the
pattern does not match.  The state is not modified by this helper. -/
def getSerialNumber (env : Env) (c : EnvoyClient) : Except String String × List Event :=
  if !c.session_active then
    (.error "Session not initialized", [])
  else if env.infoResp.status = 200 then
    match findSn env.infoResp.body with
    | some serial => (.ok serial, [.getInfo])
    | none => (.error "Serial number not found", [.getInfo])
  else
    (.error ("Failed to get serial number: " ++ toString env.infoResp.status), [.getInfo])

/-- `EnvoyClient._validate_jwt_token`: POST `/auth/check_jwt` with a bearer
header.  On 200 with either marker it caches the token; on 200 with any other
body it logs and returns normally WITHOUT caching; on non-200 it raises. -/
def validateJwtToken (env : Env) (c : EnvoyClient) (token : String) : StepResult Unit :=
  if env.checkResp.status = 200 then
    if occursIn "Valid token".toList env.checkResp.body.toList
        || occursIn "<!DOCTYPE html>".toList env.checkResp.body.toList then
      ⟨.ok (), { c with jwt_token := some token }, [.postCheckJwt]⟩
    else
      ⟨.ok (), c, [.postCheckJwt]⟩
  else
    ⟨.error ("JWT token validation failed: " ++ toString env.checkResp.status), c, [.postCheckJwt]⟩

/-- `EnvoyClient._get_jwt_token`: POST the Entrez token exchange.  On 200 with
a truthy `access_token` (or fallback `token`) field it validates; on 200 with
no token or an unparsable body it logs and returns normally; on non-200 it
raises.  (The guard returning when `self._session is None` is kept.) -/
def getJwtToken (env : Env) (c : EnvoyClient) : StepResult Unit :=
  if !c.session_active then
    ⟨.ok (), c, []⟩
  else if env.tokenResp.status = 200 then
    match env.tokenResp.json with
    | some j =>
      match pyOr j.access_token j.token with
      | some t =>
        if t.isEmpty then
          ⟨.ok (), c, [.postTokenExchange]⟩
        else
          ⟨(validateJwtToken env c t).result, (validateJwtToken env c t).state,
            .postTokenExchange :: (validateJwtToken env c t).trace⟩
      | none => ⟨.ok (), c, [.postTokenExchange]⟩
    | none => ⟨.ok (), c, [.postTokenExchange]⟩
  else
    ⟨.error ("JWT token exchange failed: " ++ toString env.tokenResp.status), c, [.postTokenExchange]⟩

/-- `authenticate`, first block: ensure the session exists, then resolve the
serial number when the cached one is falsy. -/
def serialPhase (env : Env) (c : EnvoyClient) : Except String EnvoyClient × List Event :=
  if pyTruthy c.serial_number then (.ok c, [])
  else
    match getSerialNumber env c with
    | (.ok s, ev) => (.ok { c with serial_number := some s }, ev)
    | (.error e, ev) => (.error e, ev)

/-- `authenticate`, login block: POST the cloud login form.  A 302 whose
`Location` query carries a `code` continues into the token exchange; a 302
without `code`, any non-200/non-302 status, and the 200 fall-through all
raise. -/
def loginPhase (env : Env) (c : EnvoyClient) : StepResult Unit :=
  if env.loginResp.status = 302 then
    match qsFirst (urlQuery (env.loginResp.location.getD "")) "code" with
    | some _authCode =>
      ⟨(getJwtToken env c).result, (getJwtToken env c).state,
        .postLogin :: (getJwtToken env c).trace⟩
    | none => ⟨.error "Authorization code not found in redirect", c, [.postLogin]⟩
  else if env.loginResp.status = 200 then
    ⟨.error ("Unexpected response: " ++ toString env.loginResp.status), c, [.postLogin]⟩
  else
    ⟨.error ("Authentication failed: " ++ toString env.loginResp.status), c, [.postLogin]⟩

/-- `EnvoyClient.authenticate`: create the session if absent, resolve the
serial number if unset, then run the login / token-exchange / validation
sequence.  (The PKCE material generated between the two phases does not affect
control flow; it is modelled separately by `generateCodeVerifier` /
`generateChallenge`.) -/
def authenticate (env : Env) (c : EnvoyClient) : StepResult Unit :=
  match serialPhase env { c with session_active := true } with
  | (.error e, ev) => ⟨.error e, { c with session_active := true }, ev⟩
  | (.ok c1, ev) =>
    ⟨(loginPhase env c1).result, (loginPhase env c1).state, ev ++ (loginPhase env c1).trace⟩

/-- The normalized snapshot `get_production_status` returns. -/
structure ProdStatus where
  is_producing : Bool
  current_power : Int
  production_enabled : Bool
  deriving DecidableEq

/-- `data.get("production", [{}])` followed by
`production_array[0] if production_array else {}`. -/
def firstEntry (pj : ProdJson) : ProdEntry :=
  match pj.production.getD [{}] with
  | [] => {}
  | e :: _ => e

/-- `EnvoyClient.get_production_status`: GET `production.json` (attaching auth
headers only when `jwt_token` is truthy), derive the snapshot on 200, raise on
any other status.  It never calls `authenticate`.  The state is unchanged. -/
def getProductionStatus (env : Env) (c : EnvoyClient) : Except String ProdStatus × List Event :=
  if !c.session_active then
    (.error "Session not initialized", [])
  else if env.prodResp.status = 200 then
    (.ok { is_producing := decide (0 < (firstEntry env.prodResp.json).wNow.getD 0)
           current_power := (firstEntry env.prodResp.json).wNow.getD 0
           production_enabled := true },
     [.getProduction (pyTruthy c.jwt_token)])
  else
    (.error ("Failed to get production status: " ++ toString env.prodResp.status),
     [.getProduction (pyTruthy c.jwt_token)])

/-- `EnvoyClient.set_production_power`: authenticate first when `jwt_token` is
falsy, then PUT `{length: 1, arr: [0 if enabled else 1]}` to the power-mode
endpoint; any status outside {200, 201, 204} raises. -/
def setProductionPower (env : Env) (c : EnvoyClient) (enabled : Bool) : StepResult Unit :=
  match (if !pyTruthy c.jwt_token then
          ((authenticate env c).result, (authenticate env c).state, (authenticate env c).trace)
         else ((.ok ()), c, ([] : List Event))) with
  | (.error e, c1, ev1) => ⟨.error e, c1, ev1⟩
  | (.ok _, c1, ev1) =>
    if !c1.session_active then
      ⟨.error "Session not initialized", c1, ev1⟩
    else if env.powerStatus = 200 || env.powerStatus = 201 || env.powerStatus = 204 then
      ⟨.ok (), c1, ev1 ++ [.putPower ⟨1, [if enabled then 0 else 1]⟩]⟩
    else
      ⟨.error ("Failed to set production power: " ++ toString env.powerStatus),
        c1, ev1 ++ [.putPower ⟨1, [if enabled then 0 else 1]⟩]⟩

/-- The call raised (its result is an `Except.error`). -/
def isError {α : Type} : Except String α → Bool
  | .error _ => true
  | .ok _ => false

/-- Two client states that agree on every field except possibly `jwt_token`. -/
def agreesExceptJwt (a b : EnvoyClient) : Prop :=
  a.host = b.host ∧ a.username = b.username ∧ a.password = b.password
    ∧ a.serial_number = b.serial_number ∧ a.session_id = b.session_id
    ∧ a.session_active = b.session_active

/-! ## PKCE material (`_generate_code_verifier`, `_generate_challenge`)

`hashlib.sha256` is embedded as an executable SHA-256 over byte lists and
`base64.b64encode` as `b64Encode`; `str.replace` becomes
`replaceChar` / `dropChar`. -/

abbrev Byte := Fin 256

def byte (n : Nat) : Byte := ⟨n % 256, Nat.mod_lt n (by omega)⟩

def w32 (n : Nat) : Nat := n % 4294967296

def rotr32 (x n : Nat) : Nat := (x >>> n) ||| w32 (x <<< (32 - n))

def shaCh (x y z : Nat) : Nat := (x &&& y) ^^^ ((x ^^^ 4294967295) &&& z)

def shaMaj (x y z : Nat) : Nat := (x &&& y) ^^^ (x &&& z) ^^^ (y &&& z)

def bigSigma0 (x : Nat) : Nat := rotr32 x 2 ^^^ rotr32 x 13 ^^^ rotr32 x 22

def bigSigma1 (x : Nat) : Nat := rotr32 x 6 ^^^ rotr32 x 11 ^^^ rotr32 x 25

def smallSigma0 (x : Nat) : Nat := rotr32 x 7 ^^^ rotr32 x 18 ^^^ (x >>> 3)

def smallSigma1 (x : Nat) : Nat := rotr32 x 17 ^^^ rotr32 x 19 ^^^ (x >>> 10)

/-- The 64 SHA-256 round constants of FIPS 180-4 (decimal). -/
def shaK : List Nat :=
  [1116352408, 1899447441, 3049323471, 3921009573, 961987163, 1508970993, 2453635748,
   2870763221, 3624381080, 310598401, 607225278, 1426881987, 1925078388, 2162078206,
   2614888103, 3248222580, 3835390401, 4022224774, 264347078, 604807628, 770255983,
   1249150122, 1555081692, 1996064986, 2554220882, 2821834349, 2952996808, 3210313671,
   3336571891, 3584528711, 113926993, 338241895, 666307205, 773529912, 1294757372,
   1396182291, 1695183700, 1986661051, 2177026350, 2456956037, 2730485921, 2820302411,
   3259730800, 3345764771, 3516065817, 3600352804, 4094571909, 275423344, 430227734,
   506948616, 659060556, 883997877, 958139571, 1322822218, 1537002063, 1747873779,
   1955562222, 2024104815, 2227730452, 2361852424, 2428436474, 2756734187, 3204031479,
   3329325298]

/-- The initial SHA-256 hash state of FIPS 180-4 (decimal). -/
def shaH0 : List Nat :=
  [1779033703, 3144134277, 1013904242, 2773480762,
   1359893119, 2600822924, 528734635, 1541459225]

/-- Big-endian 8-byte encoding of the bit length. -/
def beBytes8 (n : Nat) : List Byte :=
  [byte (n >>> 56), byte (n >>> 48), byte (n >>> 40), byte (n >>> 32),
   byte (n >>> 24), byte (n >>> 16), byte (n >>> 8), byte n]

/-- SHA-256 padding: `0x80`, zeros to 56 mod 64, 8-byte big-endian bit length. -/
def sha256Pad (msg : List Byte) : List Byte :=
  let padZeros := (119 - msg.length % 64) % 64
  msg ++ byte 128 :: (List.replicate padZeros (byte 0) ++ beBytes8 (msg.length * 8))

/-- Big-endian 32-bit words from groups of four bytes. -/
def bytesToWords : List Byte → List Nat
  | a :: b :: c2 :: d :: rest =>
      (a.val * 16777216 + b.val * 65536 + c2.val * 256 + d.val) :: bytesToWords rest
  | _ => []

/-- Extend the 16 block words to the 64-word message schedule. -/
def shaSchedule (block : List Nat) : List Nat :=
  (List.range 48).foldl
    (fun acc _ =>
      let n := acc.length
      acc ++ [w32 (smallSigma1 (acc.getD (n - 2) 0) + acc.getD (n - 7) 0
                    + smallSigma0 (acc.getD (n - 15) 0) + acc.getD (n - 16) 0)])
    block

/-- One round of the SHA-256 compression function. -/
def shaCompressStep (st : List Nat) (kw : Nat × Nat) : List Nat :=
  match st with
  | [a, b, c2, d, e, f, g, h] =>
    let t1 := w32 (h + bigSigma1 e + shaCh e f g + kw.1 + kw.2)
    let t2 := w32 (bigSigma0 a + shaMaj a b c2)
    [w32 (t1 + t2), a, b, c2, w32 (d + t1), e, f, g]
  | other => other

/-- Compress one 64-byte block into the running hash. -/
def shaCompressBlock (h : List Nat) (block : List Byte) : List Nat :=
  let final := (shaK.zip (shaSchedule (bytesToWords block))).foldl shaCompressStep h
  List.zipWith (fun x y => w32 (x + y)) h final

/-- Split into 64-byte blocks. -/
def chunks64 : List Byte → List (List Byte)
  | [] => []
  | c :: rest => (c :: rest).take 64 :: chunks64 (rest.drop 63)
termination_by l => l.length
decreasing_by simp [List.length_drop]; omega

/-- SHA-256 digest of a byte list (32 bytes). -/
def sha256 (msg : List Byte) : List Byte :=
  List.flatten
    (((chunks64 (sha256Pad msg)).foldl shaCompressBlock shaH0).map
      fun wd => [byte (wd >>> 24), byte (wd >>> 16), byte (wd >>> 8), byte wd])

def b64StdAlphabet : List Char :=
  "ABCDEFGHIJKLMNOPQRSTUVWXYZabcdefghijklmnopqrstuvwxyz0123456789+/".toList

def b64UrlAlphabet : List Char :=
  "ABCDEFGHIJKLMNOPQRSTUVWXYZabcdefghijklmnopqrstuvwxyz0123456789-_".toList

def b64StdChar (n : Nat) : Char := b64StdAlphabet.getD n 'A'

def b64UrlChar (n : Nat) : Char := b64UrlAlphabet.getD n 'A'

/-- `base64.b64encode` (standard alphabet, `=` padding). -/
def b64Encode : List Byte → List Char
  | [] => []
  | [b1] => [b64StdChar (b1.val / 4), b64StdChar (b1.val % 4 * 16), '=', '=']
  | [b1, b2] => [b64StdChar (b1.val / 4), b64StdChar (b1.val % 4 * 16 + b2.val / 16),
      b64StdChar (b2.val % 16 * 4), '=']
  | b1 :: b2 :: b3 :: rest =>
      b64StdChar (b1.val / 4) :: b64StdChar (b1.val % 4 * 16 + b2.val / 16)
        :: b64StdChar (b2.val % 16 * 4 + b3.val / 64) :: b64StdChar (b3.val % 64)
        :: b64Encode rest

/-- URL-safe base64 (alphabet ending `-_`) without padding: the specification's
reading of the challenge derivation, to be compared with the code's
replace-and-strip chain. -/
def b64UrlEncodeNoPad : List Byte → List Char
  | [] => []
  | [b1] => [b64UrlChar (b1.val / 4), b64UrlChar (b1.val % 4 * 16)]
  | [b1, b2] => [b64UrlChar (b1.val / 4), b64UrlChar (b1.val % 4 * 16 + b2.val / 16),
      b64UrlChar (b2.val % 16 * 4)]
  | b1 :: b2 :: b3 :: rest =>
      b64UrlChar (b1.val / 4) :: b64UrlChar (b1.val % 4 * 16 + b2.val / 16)
        :: b64UrlChar (b2.val % 16 * 4 + b3.val / 64) :: b64UrlChar (b3.val % 64)
        :: b64UrlEncodeNoPad rest

/-- `str.replace(old, new)` for single characters. -/
def replaceChar (old new : Char) : List Char → List Char
  | [] => []
  | c :: l => (if c = old then new else c) :: replaceChar old new l

/-- `str.replace(x, "")` for a single character. -/
def dropChar (x : Char) : List Char → List Char
  | [] => []
  | c :: l => if c = x then dropChar x l else c :: dropChar x l

/-- `str.encode("utf-8")`. -/
def utf8Bytes (s : String) : List Byte := s.toUTF8.toList.map fun b => byte b.toNat

/-- `string.ascii_letters + string.digits`, the verifier alphabet. -/
def verifierCharacters : List Char :=
  "abcdefghijklmnopqrstuvwxyzABCDEFGHIJKLMNOPQRSTUVWXYZ0123456789".toList

/-- `_generate_code_verifier`: `length` draws from the alphanumeric alphabet;
the random draws of `secrets.choice` are supplied as `picks`. -/
def generateCodeVerifier (picks : Nat → Fin 62) (length : Nat) : String :=
  String.mk ((List.range length).map fun i => verifierCharacters.getD (picks i).val 'a')

/-- `_generate_challenge`: standard base64 of SHA-256 of the UTF-8 verifier,
then `.replace("+", "-").replace("/", "_").replace("=", "")`. -/
def generateChallenge (code_verifier : String) : String :=
  String.mk (dropChar '='
    (replaceChar '/' '_' (replaceChar '+' '-' (b64Encode (sha256 (utf8Bytes code_verifier))))))

/-! ## Concrete fixtures -/

deriving instance DecidableEq for Except

/-- A fully successful environment (mirrors the scenario in spec section 8). -/
def okEnv : Env :=
  { infoResp := { status := 200, body := "<info><device><sn>123456789012</sn></device></info>" }
    loginResp := { status := 302, location := some "https://192.0.2.1/auth/callback?code=abc123" }
    tokenResp := { status := 200, json := some { access_token := some "tok1" } }
    checkResp := { status := 200, body := "Valid token." }
    prodResp := { status := 200, json := { production := some [{ wNow := some 5000 }] } }
    powerStatus := 204 }

/-- A client fresh out of `__init__` (no serial, no token, no session). -/
def freshClient : EnvoyClient :=
  { host := "192.0.2.1", username := "user@example.com", password := "pw" }

/-- A fresh client whose transport session already exists. -/
def sessionClient : EnvoyClient := { freshClient with session_active := true }

/-- A client holding a cached bearer token and a live session. -/
def tokenClient : EnvoyClient :=
  { freshClient with session_active := true, jwt_token := some "tok1" }

/-- Token exchange answers 200 but its JSON has neither `access_token` nor
`token`. -/
def noTokenEnv : Env := { okEnv with tokenResp := { status := 200, json := some {} } }

/-- Local token check answers 200 with a body containing neither `Valid token`
nor an HTML document. -/
def badBodyEnv : Env := { okEnv with checkResp := { status := 200, body := "Session expired" } }

/-- Serial fetch succeeds, then the cloud login answers 500. -/
def serialThenFailEnv : Env := { okEnv with loginResp := { status := 500 } }

/-- Device info answers 200 but the document carries no serial element. -/
def noSerialEnv : Env := { okEnv with infoResp := { status := 200, body := "<info></info>" } }

/-! ## Helper lemmas -/

theorem getSerialNumber_trace (env : Env) (c : EnvoyClient) :
    (getSerialNumber env c).2 = [] ∨ (getSerialNumber env c).2 = [Event.getInfo] := by
  unfold getSerialNumber
  split
  · exact .inl rfl
  · split
    · split <;> exact .inr rfl
    · exact .inr rfl

theorem getSerialNumber_ok (env : Env) (c : EnvoyClient) (s : String) (ev : List Event)
    (h : getSerialNumber env c = (.ok s, ev)) :
    findSn env.infoResp.body = some s := by
  unfold getSerialNumber at h
  split at h
  · simp at h
  · split at h
    · split at h
      next serial heq =>
        simp only [Prod.mk.injEq, Except.ok.injEq] at h
        rw [heq, h.1]
      next heq => simp at h
    · simp at h

theorem serialPhase_trace (env : Env) (c : EnvoyClient) :
    (serialPhase env c).2 = [] ∨ (serialPhase env c).2 = [Event.getInfo] := by
  unfold serialPhase
  split
  · exact .inl rfl
  · rcases hg : getSerialNumber env c with ⟨r, ev⟩
    have hev := getSerialNumber_trace env c
    rw [hg] at hev
    cases r <;> simpa using hev

theorem serialPhase_ok (env : Env) (c c1 : EnvoyClient) (ev : List Event)
    (h : serialPhase env c = (.ok c1, ev)) :
    (c1 = c ∧ pyTruthy c.serial_number = true)
    ∨ ∃ s, findSn env.infoResp.body = some s ∧ c1 = { c with serial_number := some s } := by
  unfold serialPhase at h
  split at h
  next hpt =>
    left
    simp only [Prod.mk.injEq, Except.ok.injEq] at h
    exact ⟨h.1.symm, hpt⟩
  next hpt =>
    right
    rcases hg : getSerialNumber env c with ⟨r, ev'⟩
    rw [hg] at h
    cases r with
    | error e => simp at h
    | ok s =>
      refine ⟨s, getSerialNumber_ok env c s ev' hg, ?_⟩
      simp only [Prod.mk.injEq, Except.ok.injEq] at h
      exact h.1.symm

theorem validateJwtToken_state (env : Env) (c : EnvoyClient) (t : String) :
    (validateJwtToken env c t).state = c
    ∨ ((validateJwtToken env c t).state = { c with jwt_token := some t }
        ∧ (validateJwtToken env c t).result = .ok ()) := by
  unfold validateJwtToken
  split
  · split
    · exact .inr ⟨rfl, rfl⟩
    · exact .inl rfl
  · exact .inl rfl

theorem validateJwtToken_trace (env : Env) (c : EnvoyClient) (t : String) :
    (validateJwtToken env c t).trace = [Event.postCheckJwt] := by
  unfold validateJwtToken
  split
  · split <;> rfl
  · rfl

theorem getJwtToken_shape (env : Env) (c : EnvoyClient) :
    (getJwtToken env c).state = c
    ∨ ∃ t, (getJwtToken env c).state = { c with jwt_token := some t }
        ∧ (getJwtToken env c).result = .ok () := by
  unfold getJwtToken
  split
  · exact .inl rfl
  · split
    · split
      · split
        next t ht =>
          split
          · exact .inl rfl
          · rcases validateJwtToken_state env c t with h1 | ⟨h1, h2⟩
            · exact .inl h1
            · exact .inr ⟨t, h1, h2⟩
        · exact .inl rfl
      · exact .inl rfl
    · exact .inl rfl

theorem getJwtToken_trace (env : Env) (c : EnvoyClient) :
    (getJwtToken env c).trace = []
    ∨ (getJwtToken env c).trace = [Event.postTokenExchange]
    ∨ (getJwtToken env c).trace = [Event.postTokenExchange, Event.postCheckJwt] := by
  unfold getJwtToken
  split
  · exact .inl rfl
  · split
    · split
      · split
        next t ht =>
          split
          · exact .inr (.inl rfl)
          · right; right
            show Event.postTokenExchange :: (validateJwtToken env c t).trace
                = [Event.postTokenExchange, Event.postCheckJwt]
            rw [validateJwtToken_trace]
        · exact .inr (.inl rfl)
      · exact .inr (.inl rfl)
    · exact .inr (.inl rfl)

theorem loginPhase_shape (env : Env) (c : EnvoyClient) :
    (loginPhase env c).state = c
    ∨ ∃ t, (loginPhase env c).state = { c with jwt_token := some t }
        ∧ (loginPhase env c).result = .ok () := by
  unfold loginPhase
  split
  · split
    · rcases getJwtToken_shape env c with h1 | ⟨t, h1, h2⟩
      · exact .inl h1
      · exact .inr ⟨t, h1, h2⟩
    · exact .inl rfl
  · split <;> exact .inl rfl

theorem loginPhase_session (env : Env) (c : EnvoyClient) :
    (loginPhase env c).state.session_active = c.session_active := by
  rcases loginPhase_shape env c with h | ⟨t, h, _⟩ <;> rw [h]

theorem loginPhase_fail (env : Env) (c : EnvoyClient)
    (h : env.loginResp.status ≠ 302 ∨
         qsFirst (urlQuery (env.loginResp.location.getD "")) "code" = none) :
    isError (loginPhase env c).result = true
    ∧ (loginPhase env c).trace = [Event.postLogin]
    ∧ (loginPhase env c).state = c := by
  unfold loginPhase
  rcases h with h | h
  · rw [if_neg h]
    by_cases h2 : env.loginResp.status = 200
    · rw [if_pos h2]; exact ⟨rfl, rfl, rfl⟩
    · rw [if_neg h2]; exact ⟨rfl, rfl, rfl⟩
  · by_cases h1 : env.loginResp.status = 302
    · rw [if_pos h1, h]
      exact ⟨rfl, rfl, rfl⟩
    · rw [if_neg h1]
      by_cases h2 : env.loginResp.status = 200
      · rw [if_pos h2]; exact ⟨rfl, rfl, rfl⟩
      · rw [if_neg h2]; exact ⟨rfl, rfl, rfl⟩

theorem validateJwtToken_success (env : Env) (c : EnvoyClient) (t : String)
    (hcheck : env.checkResp.status = 200)
    (hmark : (occursIn "Valid token".toList env.checkResp.body.toList
              || occursIn "<!DOCTYPE html>".toList env.checkResp.body.toList) = true) :
    validateJwtToken env c t
      = ⟨.ok (), { c with jwt_token := some t }, [Event.postCheckJwt]⟩ := by
  unfold validateJwtToken
  rw [if_pos hcheck, if_pos hmark]

theorem getJwtToken_success (env : Env) (c : EnvoyClient) (j : TokenJson) (t : String)
    (hsess : c.session_active = true)
    (h200 : env.tokenResp.status = 200)
    (hj : env.tokenResp.json = some j)
    (ht : pyOr j.access_token j.token = some t)
    (hne : t.isEmpty = false)
    (hcheck : env.checkResp.status = 200)
    (hmark : (occursIn "Valid token".toList env.checkResp.body.toList
              || occursIn "<!DOCTYPE html>".toList env.checkResp.body.toList) = true) :
    getJwtToken env c
      = ⟨.ok (), { c with jwt_token := some t },
          [Event.postTokenExchange, Event.postCheckJwt]⟩ := by
  unfold getJwtToken
  rw [if_neg (show ¬((!c.session_active) = true) by simp [hsess]), if_pos h200]
  simp only [hj, ht]
  rw [if_neg (show ¬(t.isEmpty = true) by simp [hne])]
  rw [validateJwtToken_success env c t hcheck hmark]

theorem loginPhase_success (env : Env) (c : EnvoyClient) (j : TokenJson) (t authCode : String)
    (hsess : c.session_active = true)
    (h302 : env.loginResp.status = 302)
    (hcode : qsFirst (urlQuery (env.loginResp.location.getD "")) "code" = some authCode)
    (h200 : env.tokenResp.status = 200)
    (hj : env.tokenResp.json = some j)
    (ht : pyOr j.access_token j.token = some t)
    (hne : t.isEmpty = false)
    (hcheck : env.checkResp.status = 200)
    (hmark : (occursIn "Valid token".toList env.checkResp.body.toList
              || occursIn "<!DOCTYPE html>".toList env.checkResp.body.toList) = true) :
    loginPhase env c
      = ⟨.ok (), { c with jwt_token := some t },
          [Event.postLogin, Event.postTokenExchange, Event.postCheckJwt]⟩ := by
  unfold loginPhase
  simp [h302, hcode, getJwtToken_success env c j t hsess h200 hj ht hne hcheck hmark]

theorem authenticate_success (env : Env) (c : EnvoyClient) (j : TokenJson) (t authCode : String)
    (hser : pyTruthy c.serial_number = true
            ∨ (env.infoResp.status = 200 ∧ (findSn env.infoResp.body).isSome = true))
    (h302 : env.loginResp.status = 302)
    (hcode : qsFirst (urlQuery (env.loginResp.location.getD "")) "code" = some authCode)
    (h200 : env.tokenResp.status = 200)
    (hj : env.tokenResp.json = some j)
    (ht : pyOr j.access_token j.token = some t)
    (hne : t.isEmpty = false)
    (hcheck : env.checkResp.status = 200)
    (hmark : (occursIn "Valid token".toList env.checkResp.body.toList
              || occursIn "<!DOCTYPE html>".toList env.checkResp.body.toList) = true) :
    (authenticate env c).result = .ok ()
    ∧ (authenticate env c).state.jwt_token = some t
    ∧ (authenticate env c).state.session_active = true := by
  unfold authenticate
  by_cases hpt : pyTruthy c.serial_number = true
  · have hsp : serialPhase env { c with session_active := true }
        = (.ok { c with session_active := true }, []) := by
      unfold serialPhase
      simp [hpt]
    have hlp := loginPhase_success env { c with session_active := true } j t authCode
      rfl h302 hcode h200 hj ht hne hcheck hmark
    rw [hsp]
    show (loginPhase env { c with session_active := true }).result = .ok ()
      ∧ (loginPhase env { c with session_active := true }).state.jwt_token = some t
      ∧ (loginPhase env { c with session_active := true }).state.session_active = true
    rw [hlp]
    exact ⟨rfl, rfl, rfl⟩
  · have h2 : env.infoResp.status = 200 ∧ (findSn env.infoResp.body).isSome = true := by
      rcases hser with hser | h2
      · exact absurd hser hpt
      · exact h2
    obtain ⟨s, hs⟩ := Option.isSome_iff_exists.mp h2.2
    have hpt2 : pyTruthy c.serial_number = false := by
      simpa using hpt
    have hsp : serialPhase env { c with session_active := true }
        = (.ok { c with serial_number := some s, session_active := true },
            [Event.getInfo]) := by
      unfold serialPhase getSerialNumber
      simp [hpt2, h2.1, hs]
    have hlp := loginPhase_success env { c with serial_number := some s, session_active := true }
      j t authCode rfl h302 hcode h200 hj ht hne hcheck hmark
    rw [hsp]
    show (loginPhase env { c with serial_number := some s, session_active := true }).result
        = .ok ()
      ∧ (loginPhase env
          { c with serial_number := some s, session_active := true }).state.jwt_token = some t
      ∧ (loginPhase env
          { c with serial_number := some s, session_active := true }).state.session_active = true
    rw [hlp]
    exact ⟨rfl, rfl, rfl⟩

theorem authenticate_session (env : Env) (c : EnvoyClient) :
    (authenticate env c).state.session_active = true := by
  unfold authenticate
  rcases hs : serialPhase env { c with session_active := true } with ⟨r, ev⟩
  cases r with
  | error e => rfl
  | ok c1 =>
    show (loginPhase env c1).state.session_active = true
    rw [loginPhase_session]
    rcases serialPhase_ok env _ c1 ev hs with ⟨hc1, _⟩ | ⟨s, _, hc1⟩ <;> rw [hc1]

theorem validateJwtToken_jwt (env : Env) (c : EnvoyClient) (tk : Option String) (t : String) :
    (validateJwtToken env { c with jwt_token := tk } t).result
      = (validateJwtToken env c t).result
    ∧ (validateJwtToken env { c with jwt_token := tk } t).trace
      = (validateJwtToken env c t).trace
    ∧ agreesExceptJwt (validateJwtToken env { c with jwt_token := tk } t).state
        (validateJwtToken env c t).state
    ∧ ((validateJwtToken env { c with jwt_token := tk } t).state.jwt_token
          = (validateJwtToken env c t).state.jwt_token
       ∨ ((validateJwtToken env { c with jwt_token := tk } t).state.jwt_token = tk
          ∧ (validateJwtToken env c t).state.jwt_token = c.jwt_token)) := by
  unfold validateJwtToken
  by_cases h1 : env.checkResp.status = 200
  · rw [if_pos h1, if_pos h1]
    by_cases h2 : (occursIn "Valid token".toList env.checkResp.body.toList
        || occursIn "<!DOCTYPE html>".toList env.checkResp.body.toList) = true
    · rw [if_pos h2, if_pos h2]
      exact ⟨rfl, rfl, ⟨rfl, rfl, rfl, rfl, rfl, rfl⟩, .inl rfl⟩
    · rw [if_neg h2, if_neg h2]
      exact ⟨rfl, rfl, ⟨rfl, rfl, rfl, rfl, rfl, rfl⟩, .inr ⟨rfl, rfl⟩⟩
  · rw [if_neg h1, if_neg h1]
    exact ⟨rfl, rfl, ⟨rfl, rfl, rfl, rfl, rfl, rfl⟩, .inr ⟨rfl, rfl⟩⟩

theorem getJwtToken_jwt (env : Env) (c : EnvoyClient) (tk : Option String) :
    (getJwtToken env { c with jwt_token := tk }).result = (getJwtToken env c).result
    ∧ (getJwtToken env { c with jwt_token := tk }).trace = (getJwtToken env c).trace
    ∧ agreesExceptJwt (getJwtToken env { c with jwt_token := tk }).state
        (getJwtToken env c).state
    ∧ ((getJwtToken env { c with jwt_token := tk }).state.jwt_token
          = (getJwtToken env c).state.jwt_token
       ∨ ((getJwtToken env { c with jwt_token := tk }).state.jwt_token = tk
          ∧ (getJwtToken env c).state.jwt_token = c.jwt_token)) := by
  unfold getJwtToken
  by_cases hact : (!c.session_active) = true
  · rw [if_pos hact, if_pos hact]
    exact ⟨rfl, rfl, ⟨rfl, rfl, rfl, rfl, rfl, rfl⟩, .inr ⟨rfl, rfl⟩⟩
  · rw [if_neg hact, if_neg hact]
    by_cases h200 : env.tokenResp.status = 200
    · rw [if_pos h200, if_pos h200]
      rcases hj : env.tokenResp.json with _ | j
      · exact ⟨rfl, rfl, ⟨rfl, rfl, rfl, rfl, rfl, rfl⟩, .inr ⟨rfl, rfl⟩⟩
      · rcases ht : pyOr j.access_token j.token with _ | t
        · simp [ht, agreesExceptJwt]
        · simp only [ht]
          by_cases hemp : t.isEmpty = true
          · rw [if_pos hemp, if_pos hemp]
            exact ⟨rfl, rfl, ⟨rfl, rfl, rfl, rfl, rfl, rfl⟩, .inr ⟨rfl, rfl⟩⟩
          · rw [if_neg hemp, if_neg hemp]
            have hv := validateJwtToken_jwt env c tk t
            exact ⟨hv.1, congrArg (fun l => Event.postTokenExchange :: l) hv.2.1,
              hv.2.2.1, hv.2.2.2⟩
    · rw [if_neg h200, if_neg h200]
      exact ⟨rfl, rfl, ⟨rfl, rfl, rfl, rfl, rfl, rfl⟩, .inr ⟨rfl, rfl⟩⟩

theorem loginPhase_jwt (env : Env) (c : EnvoyClient) (tk : Option String) :
    (loginPhase env { c with jwt_token := tk }).result = (loginPhase env c).result
    ∧ (loginPhase env { c with jwt_token := tk }).trace = (loginPhase env c).trace
    ∧ agreesExceptJwt (loginPhase env { c with jwt_token := tk }).state
        (loginPhase env c).state
    ∧ ((loginPhase env { c with jwt_token := tk }).state.jwt_token
          = (loginPhase env c).state.jwt_token
       ∨ ((loginPhase env { c with jwt_token := tk }).state.jwt_token = tk
          ∧ (loginPhase env c).state.jwt_token = c.jwt_token)) := by
  unfold loginPhase
  by_cases h302 : env.loginResp.status = 302
  · rw [if_pos h302, if_pos h302]
    rcases hq : qsFirst (urlQuery (env.loginResp.location.getD "")) "code" with _ | code
    · exact ⟨rfl, rfl, ⟨rfl, rfl, rfl, rfl, rfl, rfl⟩, .inr ⟨rfl, rfl⟩⟩
    · have hg := getJwtToken_jwt env c tk
      exact ⟨hg.1, congrArg (fun l => Event.postLogin :: l) hg.2.1, hg.2.2.1, hg.2.2.2⟩
  · rw [if_neg h302, if_neg h302]
    by_cases h200 : env.loginResp.status = 200
    · rw [if_pos h200, if_pos h200]
      exact ⟨rfl, rfl, ⟨rfl, rfl, rfl, rfl, rfl, rfl⟩, .inr ⟨rfl, rfl⟩⟩
    · rw [if_neg h200, if_neg h200]
      exact ⟨rfl, rfl, ⟨rfl, rfl, rfl, rfl, rfl, rfl⟩, .inr ⟨rfl, rfl⟩⟩

theorem serialPhase_jwt (env : Env) (c : EnvoyClient) (tk : Option String) :
    serialPhase env { c with jwt_token := tk }
      = ((serialPhase env c).1.map fun c1 => { c1 with jwt_token := tk },
         (serialPhase env c).2) := by
  have hgs : getSerialNumber env { c with jwt_token := tk } = getSerialNumber env c := rfl
  by_cases hpt : pyTruthy c.serial_number = true
  · simp [serialPhase, hpt, Except.map]
  · have hpt2 : pyTruthy c.serial_number = false := by simpa using hpt
    rcases hg : getSerialNumber env c with ⟨r, ev⟩
    cases r <;> simp [serialPhase, hpt2, hgs, hg, Except.map]

theorem authenticate_jwt (env : Env) (c : EnvoyClient) (tk : Option String) :
    (authenticate env { c with jwt_token := tk }).result = (authenticate env c).result
    ∧ (authenticate env { c with jwt_token := tk }).trace = (authenticate env c).trace
    ∧ agreesExceptJwt (authenticate env { c with jwt_token := tk }).state
        (authenticate env c).state
    ∧ ((authenticate env { c with jwt_token := tk }).state.jwt_token
          = (authenticate env c).state.jwt_token
       ∨ ((authenticate env { c with jwt_token := tk }).state.jwt_token = tk
          ∧ (authenticate env c).state.jwt_token = c.jwt_token)) := by
  unfold authenticate
  rw [show ({ c with jwt_token := tk, session_active := true } : EnvoyClient)
      = { { c with session_active := true } with jwt_token := tk } from rfl]
  rw [serialPhase_jwt env { c with session_active := true } tk]
  rcases hs : serialPhase env { c with session_active := true } with ⟨r, ev⟩
  cases r with
  | error e => simp [Except.map, agreesExceptJwt]
  | ok c1 =>
    have hlp := loginPhase_jwt env c1 tk
    have hc1jwt : c1.jwt_token = c.jwt_token := by
      rcases serialPhase_ok env _ c1 ev hs with ⟨hc1, _⟩ | ⟨s, _, hc1⟩ <;> rw [hc1]
    refine ⟨hlp.1, ?_, hlp.2.2.1, ?_⟩
    · show ev ++ (loginPhase env { c1 with jwt_token := tk }).trace
        = ev ++ (loginPhase env c1).trace
      rw [hlp.2.1]
    · rcases hlp.2.2.2 with hj | ⟨hj1, hj2⟩
      · exact .inl hj
      · exact .inr ⟨hj1, by rw [hj2, hc1jwt]⟩

/-! ## Claim theorems -/

/-- Claim C3 as stated is refuted at a concrete input: an authenticate run
whose login step fails with status 500 raises, yet the serial number fetched
in the first step is retained in the session. -/
theorem auth_failure_retains_serial_cex :
    isError (authenticate serialThenFailEnv freshClient).result = true
    ∧ freshClient.serial_number = none
    ∧ (authenticate serialThenFailEnv freshClient).state.serial_number
        = some "123456789012" := by
  decide

/-- Claim C3 (amended): when `authenticate` raises, the bearer token and all
credential fields are unchanged; the serial number is either unchanged or
holds exactly the value extracted from the device-info document. -/
theorem auth_failure_preserves_token (env : Env) (c : EnvoyClient)
    (h : isError (authenticate env c).result = true) :
    (authenticate env c).state.jwt_token = c.jwt_token
    ∧ (authenticate env c).state.host = c.host
    ∧ (authenticate env c).state.username = c.username
    ∧ (authenticate env c).state.password = c.password
    ∧ (authenticate env c).state.session_id = c.session_id
    ∧ ((authenticate env c).state.serial_number = c.serial_number
        ∨ (authenticate env c).state.serial_number = findSn env.infoResp.body) := by
  unfold authenticate at h ⊢
  rcases hs : serialPhase env { c with session_active := true } with ⟨r, ev⟩
  rw [hs] at h
  cases r with
  | error e => exact ⟨rfl, rfl, rfl, rfl, rfl, .inl rfl⟩
  | ok c1 =>
    have herr : isError (loginPhase env c1).result = true := h
    have hst : (loginPhase env c1).state = c1 := by
      rcases loginPhase_shape env c1 with h1 | ⟨t, h1, h2⟩
      · exact h1
      · rw [h2] at herr
        simp [isError] at herr
    show (loginPhase env c1).state.jwt_token = c.jwt_token
      ∧ (loginPhase env c1).state.host = c.host
      ∧ (loginPhase env c1).state.username = c.username
      ∧ (loginPhase env c1).state.password = c.password
      ∧ (loginPhase env c1).state.session_id = c.session_id
      ∧ ((loginPhase env c1).state.serial_number = c.serial_number
          ∨ (loginPhase env c1).state.serial_number = findSn env.infoResp.body)
    rw [hst]
    rcases serialPhase_ok env _ c1 ev hs with ⟨hc1, _⟩ | ⟨s, hfind, hc1⟩
    · rw [hc1]
      exact ⟨rfl, rfl, rfl, rfl, rfl, .inl rfl⟩
    · rw [hc1]
      exact ⟨rfl, rfl, rfl, rfl, rfl, .inr (by rw [hfind])⟩

/-- Witness for amended C3: the serial-then-500 environment. -/
theorem auth_failure_preserves_token_witness :
    (authenticate serialThenFailEnv freshClient).state.jwt_token = freshClient.jwt_token
    ∧ (authenticate serialThenFailEnv freshClient).state.host = freshClient.host
    ∧ (authenticate serialThenFailEnv freshClient).state.username = freshClient.username
    ∧ (authenticate serialThenFailEnv freshClient).state.password = freshClient.password
    ∧ (authenticate serialThenFailEnv freshClient).state.session_id = freshClient.session_id
    ∧ ((authenticate serialThenFailEnv freshClient).state.serial_number
          = freshClient.serial_number
        ∨ (authenticate serialThenFailEnv freshClient).state.serial_number
            = findSn serialThenFailEnv.infoResp.body) :=
  auth_failure_preserves_token serialThenFailEnv freshClient (by decide)

/-- Claim C4: a run of `authenticate` in which every step succeeds leaves the
session holding a non-empty bearer token, and a subsequent
`get_production_status` call issues only the telemetry GET (with the bearer
header attached) — it never re-runs the login sequence. -/
theorem auth_success_caches_token (env : Env) (c : EnvoyClient) (j : TokenJson)
    (t authCode : String)
    (hser : pyTruthy c.serial_number = true
            ∨ (env.infoResp.status = 200 ∧ (findSn env.infoResp.body).isSome = true))
    (h302 : env.loginResp.status = 302)
    (hcode : qsFirst (urlQuery (env.loginResp.location.getD "")) "code" = some authCode)
    (h200 : env.tokenResp.status = 200)
    (hj : env.tokenResp.json = some j)
    (ht : pyOr j.access_token j.token = some t)
    (hne : t.isEmpty = false)
    (hcheck : env.checkResp.status = 200)
    (hmark : (occursIn "Valid token".toList env.checkResp.body.toList
              || occursIn "<!DOCTYPE html>".toList env.checkResp.body.toList) = true) :
    (authenticate env c).result = .ok ()
    ∧ (authenticate env c).state.jwt_token = some t
    ∧ t ≠ ""
    ∧ ∀ env2 : Env, (getProductionStatus env2 (authenticate env c).state).2
        = [Event.getProduction true] := by
  obtain ⟨h1, h2, h3⟩ :=
    authenticate_success env c j t authCode hser h302 hcode h200 hj ht hne hcheck hmark
  refine ⟨h1, h2, ?_, ?_⟩
  · intro he
    rw [he] at hne
    exact absurd hne (by decide)
  · intro env2
    have hpy : pyTruthy (authenticate env c).state.jwt_token = true := by
      rw [h2]
      simp [pyTruthy, hne]
    unfold getProductionStatus
    rw [if_neg (by rw [h3]; simp)]
    by_cases hps : env2.prodResp.status = 200
    · rw [if_pos hps]
      simp [hpy]
    · rw [if_neg hps]
      simp [hpy]

/-- Claim C1 as stated is refuted at a concrete input: on a session with no
cached token, `get_production_status` issues the telemetry GET immediately —
no authentication request precedes it and no bearer header is attached — and
it succeeds. -/
theorem status_read_skips_auth_cex :
    sessionClient.jwt_token = none
    ∧ (getProductionStatus okEnv sessionClient).2 = [Event.getProduction false]
    ∧ (getProductionStatus okEnv sessionClient).1
        = .ok { is_producing := true, current_power := 5000, production_enabled := true } := by
  decide

/-- Claim C1 (amended): only `set_production_power` authenticates lazily — with
no cached token it runs `authenticate` to completion before the control PUT
and issues no PUT when `authenticate` raises; `get_production_status` never
invokes `authenticate` and issues the telemetry GET, without a bearer header,
even when the token is absent. -/
theorem lazy_auth_only_for_power_control (env : Env) (c : EnvoyClient) (enabled : Bool)
    (h : pyTruthy c.jwt_token = false) :
    (setProductionPower env c enabled).trace
      = (authenticate env c).trace
        ++ (if isError (authenticate env c).result = true then []
            else [Event.putPower ⟨1, [if enabled then 0 else 1]⟩])
    ∧ ((getProductionStatus env c).2 = []
        ∨ (getProductionStatus env c).2 = [Event.getProduction false]) := by
  constructor
  · unfold setProductionPower
    rw [if_pos (show (!pyTruthy c.jwt_token) = true by rw [h]; rfl)]
    rcases hr : (authenticate env c).result with e | u
    · simp only [hr]
      simp [isError]
    · simp only [hr]
      rw [if_neg (show ¬((!(authenticate env c).state.session_active) = true) by
        rw [authenticate_session]; simp)]
      by_cases hp : (env.powerStatus = 200 || env.powerStatus = 201
          || env.powerStatus = 204) = true
      · rw [if_pos hp]
        simp [isError]
      · rw [if_neg hp]
        simp [isError]
  · unfold getProductionStatus
    by_cases hsess : (!c.session_active) = true
    · rw [if_pos hsess]
      exact .inl rfl
    · rw [if_neg hsess]
      by_cases hps : env.prodResp.status = 200
      · rw [if_pos hps, h]
        exact .inr rfl
      · rw [if_neg hps, h]
        exact .inr rfl

/-- Witness for amended C1: enabling power on a fresh client. -/
theorem lazy_auth_only_for_power_control_witness :
    (setProductionPower okEnv freshClient true).trace
      = (authenticate okEnv freshClient).trace
        ++ (if isError (authenticate okEnv freshClient).result = true then []
            else [Event.putPower ⟨1, [if true then 0 else 1]⟩])
    ∧ ((getProductionStatus okEnv freshClient).2 = []
        ∨ (getProductionStatus okEnv freshClient).2 = [Event.getProduction false]) :=
  lazy_auth_only_for_power_control okEnv freshClient true (by decide)

/-- Claim C2 is contradicted by the code: on a 200 token-exchange response
whose JSON carries neither `access_token` nor `token`, and on a 200 token-check
response whose body contains neither the `Valid token` marker nor an HTML
document, `authenticate` returns normally (it does not raise) and leaves
`jwt_token` unset. -/
theorem silent_token_failure_returns_ok :
    ((authenticate noTokenEnv freshClient).result = .ok ()
      ∧ (authenticate noTokenEnv freshClient).state.jwt_token = none)
    ∧ ((authenticate badBodyEnv freshClient).result = .ok ()
      ∧ (authenticate badBodyEnv freshClient).state.jwt_token = none) := by
  decide

/-- Claim C10: `authenticate` never consults the cached `jwt_token`: its
outcome and request trace are identical for any two initial token values, the
final states agree on every other field, and a fully successful run overwrites
the token with the newly obtained one regardless of the initial value. -/
theorem auth_ignores_cached_token (env : Env) (c : EnvoyClient) (t1 t2 : Option String) :
    (authenticate env { c with jwt_token := t1 }).result
      = (authenticate env { c with jwt_token := t2 }).result
    ∧ (authenticate env { c with jwt_token := t1 }).trace
      = (authenticate env { c with jwt_token := t2 }).trace
    ∧ agreesExceptJwt (authenticate env { c with jwt_token := t1 }).state
        (authenticate env { c with jwt_token := t2 }).state
    ∧ (∀ (j : TokenJson) (t authCode : String),
        (pyTruthy c.serial_number = true
          ∨ (env.infoResp.status = 200 ∧ (findSn env.infoResp.body).isSome = true)) →
        env.loginResp.status = 302 →
        qsFirst (urlQuery (env.loginResp.location.getD "")) "code" = some authCode →
        env.tokenResp.status = 200 →
        env.tokenResp.json = some j →
        pyOr j.access_token j.token = some t →
        t.isEmpty = false →
        env.checkResp.status = 200 →
        (occursIn "Valid token".toList env.checkResp.body.toList
          || occursIn "<!DOCTYPE html>".toList env.checkResp.body.toList) = true →
        (authenticate env { c with jwt_token := t1 }).state.jwt_token = some t
        ∧ (authenticate env { c with jwt_token := t2 }).state.jwt_token = some t) := by
  have a1 := authenticate_jwt env c t1
  have a2 := authenticate_jwt env c t2
  refine ⟨?_, ?_, ?_, ?_⟩
  · rw [a1.1, a2.1]
  · rw [a1.2.1, a2.2.1]
  · obtain ⟨h1a, h1b, h1c, h1d, h1e, h1f⟩ := a1.2.2.1
    obtain ⟨h2a, h2b, h2c, h2d, h2e, h2f⟩ := a2.2.2.1
    exact ⟨h1a.trans h2a.symm, h1b.trans h2b.symm, h1c.trans h2c.symm,
      h1d.trans h2d.symm, h1e.trans h2e.symm, h1f.trans h2f.symm⟩
  · intro j t authCode hser h302 hcode h200 hj ht hne hcheck hmark
    have s1 := authenticate_success env { c with jwt_token := t1 } j t authCode
      hser h302 hcode h200 hj ht hne hcheck hmark
    have s2 := authenticate_success env { c with jwt_token := t2 } j t authCode
      hser h302 hcode h200 hj ht hne hcheck hmark
    exact ⟨s1.2.1, s2.2.1⟩

/-- Witness for C10: a stale cached token is ignored and overwritten. -/
theorem auth_ignores_cached_token_witness :
    (authenticate okEnv { freshClient with jwt_token := some "stale" }).result
      = (authenticate okEnv { freshClient with jwt_token := none }).result
    ∧ (authenticate okEnv { freshClient with jwt_token := some "stale" }).state.jwt_token
        = some "tok1"
    ∧ (authenticate okEnv { freshClient with jwt_token := none }).state.jwt_token
        = some "tok1" := by
  have h := auth_ignores_cached_token okEnv freshClient (some "stale") none
  have hs := h.2.2.2 { access_token := some "tok1" } "tok1" "abc123" (Or.inr (by decide))
    (by decide) (by decide) (by decide) (by decide) (by decide) (by decide) (by decide)
    (by decide)
  exact ⟨h.1, hs.1, hs.2⟩

/-- Witness for C4: the fully successful environment caches `tok1`. -/
theorem auth_success_caches_token_witness :
    (authenticate okEnv freshClient).result = .ok ()
    ∧ (authenticate okEnv freshClient).state.jwt_token = some "tok1"
    ∧ (getProductionStatus okEnv (authenticate okEnv freshClient).state).2
        = [Event.getProduction true] := by
  have h := auth_success_caches_token okEnv freshClient { access_token := some "tok1" }
    "tok1" "abc123" (Or.inr (by decide)) (by decide) (by decide) (by decide) (by decide)
    (by decide) (by decide) (by decide) (by decide)
  exact ⟨h.1, h.2.1, h.2.2.2 okEnv⟩

/-- Claim C5: whenever the login endpoint answers with a status other than 302,
or with a 302 whose `Location` query lacks a `code` parameter, `authenticate`
raises and the token-exchange request (and the subsequent token check) is never
issued. -/
theorem login_failure_stops_before_token_exchange (env : Env) (c : EnvoyClient)
    (h : env.loginResp.status ≠ 302 ∨
         qsFirst (urlQuery (env.loginResp.location.getD "")) "code" = none) :
    isError (authenticate env c).result = true
    ∧ Event.postTokenExchange ∉ (authenticate env c).trace
    ∧ Event.postCheckJwt ∉ (authenticate env c).trace := by
  unfold authenticate
  rcases hs : serialPhase env { c with session_active := true } with ⟨r, ev⟩
  have hev := serialPhase_trace env { c with session_active := true }
  rw [hs] at hev
  cases r with
  | error e =>
    refine ⟨rfl, ?_, ?_⟩ <;> (rcases hev with hev | hev <;> simp_all)
  | ok c1 =>
    have hf := loginPhase_fail env c1 h
    refine ⟨hf.1, ?_, ?_⟩
    · show Event.postTokenExchange ∉ ev ++ (loginPhase env c1).trace
      rw [hf.2.1]
      rcases hev with hev | hev <;> simp_all
    · show Event.postCheckJwt ∉ ev ++ (loginPhase env c1).trace
      rw [hf.2.1]
      rcases hev with hev | hev <;> simp_all

/-- Witness for C5: the environment whose login endpoint answers 500. -/
theorem login_failure_stops_before_token_exchange_witness :
    isError (authenticate serialThenFailEnv freshClient).result = true
    ∧ Event.postTokenExchange ∉ (authenticate serialThenFailEnv freshClient).trace
    ∧ Event.postCheckJwt ∉ (authenticate serialThenFailEnv freshClient).trace :=
  login_failure_stops_before_token_exchange serialThenFailEnv freshClient (Or.inl (by decide))

/-- Claim C6: with no serial number cached and a 200 device-info document that
contains no serial-number pattern, `authenticate` raises before the cloud
login POST is ever issued. -/
theorem missing_serial_stops_before_login (env : Env) (c : EnvoyClient)
    (h1 : pyTruthy c.serial_number = false)
    (h2 : env.infoResp.status = 200)
    (h3 : findSn env.infoResp.body = none) :
    (authenticate env c).result = .error "Serial number not found"
    ∧ Event.postLogin ∉ (authenticate env c).trace := by
  have hserial : serialPhase env { c with session_active := true }
      = (.error "Serial number not found", [Event.getInfo]) := by
    unfold serialPhase getSerialNumber
    simp [h1, h2, h3]
  unfold authenticate
  rw [hserial]
  exact ⟨rfl, by simp⟩

/-- Witness for C6: a device-info body with no `sn` element. -/
theorem missing_serial_stops_before_login_witness :
    (authenticate noSerialEnv freshClient).result = .error "Serial number not found"
    ∧ Event.postLogin ∉ (authenticate noSerialEnv freshClient).trace :=
  missing_serial_stops_before_login noSerialEnv freshClient (by decide) (by decide) (by decide)

/-- Claim C7: with a cached token, `set_production_power` sends exactly the
payload `{length: 1, arr: [0]}` when enabling and `{length: 1, arr: [1]}` when
disabling, succeeds precisely when the response status is 200, 201 or 204, and
leaves the state unchanged. -/
theorem power_control_payload_and_status (env : Env) (c : EnvoyClient) (enabled : Bool)
    (htok : pyTruthy c.jwt_token = true)
    (hsess : c.session_active = true) :
    (setProductionPower env c enabled).trace
      = [Event.putPower { length := 1, arr := [if enabled then 0 else 1] }]
    ∧ ((setProductionPower env c enabled).result = .ok ()
        ↔ (env.powerStatus = 200 ∨ env.powerStatus = 201 ∨ env.powerStatus = 204))
    ∧ (setProductionPower env c enabled).state = c := by
  by_cases hp : (env.powerStatus = 200 || env.powerStatus = 201 || env.powerStatus = 204) = true
  · have hp2 : env.powerStatus = 200 ∨ env.powerStatus = 201 ∨ env.powerStatus = 204 := by
      simpa [Bool.or_eq_true, decide_eq_true_eq, or_assoc] using hp
    unfold setProductionPower
    simp [htok, hsess, hp, hp2]
  · have hp2 : ¬(env.powerStatus = 200 ∨ env.powerStatus = 201 ∨ env.powerStatus = 204) := by
      simp only [Bool.or_eq_true, decide_eq_true_eq, or_assoc] at hp
      exact hp
    unfold setProductionPower
    simp [htok, hsess, hp, hp2]

/-- Witness for C7: disabling production against a 204 response. -/
theorem power_control_payload_and_status_witness :
    (setProductionPower okEnv tokenClient false).trace
      = [Event.putPower { length := 1, arr := [if false then 0 else 1] }]
    ∧ ((setProductionPower okEnv tokenClient false).result = .ok ()
        ↔ (okEnv.powerStatus = 200 ∨ okEnv.powerStatus = 201 ∨ okEnv.powerStatus = 204))
    ∧ (setProductionPower okEnv tokenClient false).state = tokenClient :=
  power_control_payload_and_status okEnv tokenClient false (by decide) (by decide)

/-- Claim C8: on a 200 telemetry response the snapshot takes the first entry of
the `production` list (an empty object when absent or empty), defaults `wNow`
to 0, sets `is_producing` to `current_power > 0` (hence false when `wNow` is
absent) and hardcodes `production_enabled` to true; `current_power` is
non-negative whenever `wNow` is a non-negative number. -/
theorem production_snapshot_derivation (env : Env) (c : EnvoyClient)
    (hsess : c.session_active = true)
    (h200 : env.prodResp.status = 200) :
    (getProductionStatus env c).1
      = .ok { is_producing := decide (0 < (firstEntry env.prodResp.json).wNow.getD 0)
              current_power := (firstEntry env.prodResp.json).wNow.getD 0
              production_enabled := true }
    ∧ ((firstEntry env.prodResp.json).wNow = none →
        (getProductionStatus env c).1
          = .ok { is_producing := false, current_power := 0, production_enabled := true })
    ∧ (∀ n : Int, (firstEntry env.prodResp.json).wNow = some n → 0 ≤ n →
        0 ≤ (firstEntry env.prodResp.json).wNow.getD 0) := by
  have hmain : (getProductionStatus env c).1
      = .ok { is_producing := decide (0 < (firstEntry env.prodResp.json).wNow.getD 0)
              current_power := (firstEntry env.prodResp.json).wNow.getD 0
              production_enabled := true } := by
    unfold getProductionStatus
    simp [hsess, h200]
  refine ⟨hmain, ?_, ?_⟩
  · intro hn
    rw [hmain]
    simp [hn]
  · intro n hn hpos
    rw [hn]
    simpa using hpos

theorem std_to_url : ∀ m : Fin 64,
    ((if (if b64StdChar m.val = '+' then '-' else b64StdChar m.val) = '/' then '_'
      else if b64StdChar m.val = '+' then '-' else b64StdChar m.val) = b64UrlChar m.val)
    ∧ ¬(b64UrlChar m.val = '=') := by
  decide

theorem transform_cons_std (n : Nat) (h : n < 64) (l : List Char) :
    dropChar '=' (replaceChar '/' '_' (replaceChar '+' '-' (b64StdChar n :: l)))
    = b64UrlChar n :: dropChar '=' (replaceChar '/' '_' (replaceChar '+' '-' l)) := by
  have hs1 : (if (if b64StdChar n = '+' then '-' else b64StdChar n) = '/' then '_'
      else if b64StdChar n = '+' then '-' else b64StdChar n) = b64UrlChar n :=
    (std_to_url ⟨n, h⟩).1
  have hs2 : ¬(b64UrlChar n = '=') := (std_to_url ⟨n, h⟩).2
  simp only [replaceChar, dropChar]
  rw [hs1, if_neg hs2]

theorem transform_cons_pad (l : List Char) :
    dropChar '=' (replaceChar '/' '_' (replaceChar '+' '-' ('=' :: l)))
    = dropChar '=' (replaceChar '/' '_' (replaceChar '+' '-' l)) := by
  simp [replaceChar, dropChar]

theorem b64_transform : ∀ bs : List Byte,
    dropChar '=' (replaceChar '/' '_' (replaceChar '+' '-' (b64Encode bs)))
      = b64UrlEncodeNoPad bs
  | [] => rfl
  | [b1] => by
      have hb := b1.isLt
      have h1 : b1.val / 4 < 64 := by omega
      have h2 : b1.val % 4 * 16 < 64 := by omega
      simp only [b64Encode, b64UrlEncodeNoPad]
      rw [transform_cons_std _ h1, transform_cons_std _ h2, transform_cons_pad,
        transform_cons_pad]
      rfl
  | [b1, b2] => by
      have hb1 := b1.isLt
      have hb2 := b2.isLt
      have h1 : b1.val / 4 < 64 := by omega
      have h2 : b1.val % 4 * 16 + b2.val / 16 < 64 := by omega
      have h3 : b2.val % 16 * 4 < 64 := by omega
      simp only [b64Encode, b64UrlEncodeNoPad]
      rw [transform_cons_std _ h1, transform_cons_std _ h2, transform_cons_std _ h3,
        transform_cons_pad]
      rfl
  | b1 :: b2 :: b3 :: rest => by
      have hb1 := b1.isLt
      have hb2 := b2.isLt
      have hb3 := b3.isLt
      have h1 : b1.val / 4 < 64 := by omega
      have h2 : b1.val % 4 * 16 + b2.val / 16 < 64 := by omega
      have h3 : b2.val % 16 * 4 + b3.val / 64 < 64 := by omega
      have h4 : b3.val % 64 < 64 := by omega
      have ih := b64_transform rest
      simp only [b64Encode, b64UrlEncodeNoPad]
      rw [transform_cons_std _ h1, transform_cons_std _ h2, transform_cons_std _ h3,
        transform_cons_std _ h4, ih]

theorem getD_mem_or_default (l : List Char) (k : Nat) (d : Char) :
    l.getD k d = d ∨ l.getD k d ∈ l := by
  induction l generalizing k with
  | nil => exact .inl (by simp)
  | cons c t ih =>
    cases k with
    | zero => exact .inr (by simp)
    | succ k =>
      rcases ih k with h | h
      · exact .inl (by simpa using h)
      · right
        simp only [List.getD_cons_succ]
        exact List.mem_cons_of_mem c h

/-- Claim C9: the code verifier is a 40-character string over the alphanumeric
alphabet, and the code challenge — a pure function of the verifier — equals
the URL-safe base64 (padding stripped, `+`/`/` replaced by `-`/`_`) of the
SHA-256 digest of the verifier. -/
theorem pkce_verifier_and_challenge (picks : Nat → Fin 62) (v : String) :
    (generateCodeVerifier picks 40).length = 40
    ∧ (∀ ch0 ∈ (generateCodeVerifier picks 40).toList, ch0 ∈ verifierCharacters)
    ∧ generateChallenge v = String.mk (b64UrlEncodeNoPad (sha256 (utf8Bytes v))) := by
  refine ⟨?_, ?_, ?_⟩
  · show (String.mk ((List.range 40).map fun i => verifierCharacters.getD (picks i).val 'a')).length = 40
    simp [String.length]
  · intro ch0 hch
    have hm : ch0 ∈ (List.range 40).map
        (fun i => verifierCharacters.getD (picks i).val 'a') := hch
    obtain ⟨i, _, heq⟩ := List.mem_map.mp hm
    rcases getD_mem_or_default verifierCharacters (picks i).val 'a' with hd | hd
    · rw [← heq, hd]; decide
    · rw [← heq]; exact hd
  · unfold generateChallenge
    rw [b64_transform]

/-- Witness for C8: the 5000 W telemetry body. -/
theorem production_snapshot_derivation_witness :
    (getProductionStatus okEnv sessionClient).1
      = .ok { is_producing := decide (0 < (firstEntry okEnv.prodResp.json).wNow.getD 0)
              current_power := (firstEntry okEnv.prodResp.json).wNow.getD 0
              production_enabled := true } :=
  (production_snapshot_derivation okEnv sessionClient (by decide) (by decide)).1

end Enphase
